import Mathlib

/-!
Shallow embedding of `nwcsafpps_runner/utils.py` (pytroll-pps-runner).

Conventions used throughout:
* `datetime` values are modelled as integer seconds since an epoch; a
  `timedelta(minutes=m)` is `m * 60` seconds.
* Python exceptions are modelled with `Except`; the constructors of `PyErr`
  name the Python exception class raised.
* External collaborators (the filesystem `glob`, `socket` host resolution,
  `check_uri`, the trollsift template parsers, the `PPSTimeControl`
  converter, and the posttroll publish queue) are passed in as explicit
  oracle parameters, since their internals are outside this repository.
* `shlex.split` is modelled for inputs free of quotes, backslashes and
  non-space whitespace: it splits on runs of `' '` and drops empty tokens.
-/

namespace PPSRunner

/-- Python exception classes that the embedded code can raise. -/
inductive PyErr where
  | nameError
  | valueError
  | keyError
deriving DecidableEq

/-- Worker for the `shlex.split` model: walks the character list, `acc` holds
the (reversed) characters of the token currently being read. -/
def splitSp : List Char → List Char → List String
  | [], acc => if acc = [] then [] else [String.mk acc.reverse]
  | c :: cs, acc =>
    if c = ' ' then
      if acc = [] then splitSp cs [] else String.mk acc.reverse :: splitSp cs []
    else splitSp cs (c :: acc)

/-- Model of `shlex.split` restricted to command strings free of quote
characters, backslashes and non-space whitespace: split on spaces, dropping
empty tokens. -/
def shlex_split_simple (s : String) : List String :=
  splitSp s.toList []

/-- Python truthiness of an optional string: `None` and `''` are falsy. -/
def pyTruthyOptStr : Option String → Bool
  | none => false
  | some s => !(s == "")

/-- Python `str()` of an optional string (`str(None) = "None"`). -/
def pyStrOpt : Option String → String
  | none => "None"
  | some s => s

/-- Value of a decimal digit character, `none` on a non-digit. -/
def decDigit? (c : Char) : Option Nat :=
  if c.isDigit then some (c.toNat - '0'.toNat) else none

/-- Decimal value of a digit string, read left to right. -/
def decValue : List Char → Nat → Option Nat
  | [], acc => some acc
  | c :: cs, acc =>
    match decDigit? c with
    | none => none
    | some d => decValue cs (acc * 10 + d)

/-- Model of Python `int(...)` applied to the decimal rendering of the orbit
number field (an optional sign followed by digits; anything else raises
`ValueError`, modelled as `none`). -/
def pyInt (s : String) : Option Int :=
  match s.toList with
  | [] => none
  | '-' :: rest =>
    match rest with
    | [] => none
    | _ => (decValue rest 0).map (fun n => -(n : Int))
  | l => (decValue l 0).map (fun n => (n : Int))

/-- Model of Python `str.endswith` / suffix test on filenames. -/
def pyEndsWith (s suffix : String) : Bool :=
  suffix.toList.isSuffixOf s.toList

/-- One fuel-indexed pass of Python `str.replace` over a character list:
replace every non-overlapping occurrence of `old` (left to right) by `new`.
The fuel is instantiated with the length of the list, which suffices because
each step consumes at least one character when `old` is nonempty. -/
def replaceFuel (old new : List Char) : Nat → List Char → List Char
  | 0, l => l
  | _ + 1, [] => []
  | fuel + 1, c :: cs =>
    if !old.isEmpty && old.isPrefixOf (c :: cs) then
      new ++ replaceFuel old new fuel ((c :: cs).drop old.length)
    else
      c :: replaceFuel old new fuel cs

/-- Model of Python `str.replace(old, new)` for nonempty `old`. -/
def pyReplace (s old new : String) : String :=
  String.mk (replaceFuel old.toList new.toList s.toList.length s.toList)

/-- Model of `os.path.basename`: the part after the last `/`. -/
def basename (p : String) : String :=
  String.mk ((p.toList.reverse.takeWhile (fun c => !(c == '/'))).reverse)

/-- Model of `os.path.join a b` for a relative second component. -/
def joinPath (a b : String) : String :=
  a ++ "/" ++ b

/-! ### Satellite tables (module-level constants of `utils.py`) -/

def SUPPORTED_AVHRR_SATELLITES : List String :=
  ["NOAA-15", "NOAA-18", "NOAA-19", "Metop-B", "Metop-A", "Metop-C"]

def SUPPORTED_MODIS_SATELLITES : List String :=
  ["EOS-Terra", "EOS-Aqua"]

def SUPPORTED_VIIRS_SATELLITES : List String :=
  ["Suomi-NPP", "NOAA-20", "NOAA-21", "NOAA-22", "NOAA-23"]

def SUPPORTED_SEVIRI_SATELLITES : List String :=
  ["Meteosat-09", "Meteosat-10", "Meteosat-11"]

def SUPPORTED_METIMAGE_SATELLITES : List String :=
  ["Metop-SG-A1", "Metop-SG-A2", "Metop-SG-A3"]

def SUPPORTED_PPS_SATELLITES : List String :=
  SUPPORTED_AVHRR_SATELLITES ++ SUPPORTED_MODIS_SATELLITES ++
  SUPPORTED_SEVIRI_SATELLITES ++ SUPPORTED_METIMAGE_SATELLITES ++
  SUPPORTED_VIIRS_SATELLITES

def PPS_SENSORS : List String :=
  ["amsu-a", "amsu-b", "mhs", "avhrr/3", "viirs", "modis", "seviri", "metimage"]

def NOAA_METOP_PPS_SENSORNAMES : List String :=
  ["avhrr/3", "amsu-a", "amsu-b", "mhs"]

def METOP_NAME_LETTER : List (String × String) :=
  [("metop01", "metopb"), ("metop02", "metopa"), ("metop03", "metopc")]

/-- The dict `SATELLITE_NAME`, as an association list (key, value). -/
def SATELLITE_NAME : List (String × String) :=
  [("NOAA-19", "noaa19"), ("NOAA-18", "noaa18"),
   ("NOAA-15", "noaa15"),
   ("Metop-A", "metop02"), ("Metop-B", "metop01"),
   ("Metop-C", "metop03"),
   ("Metop-SG-A1", "metopsga1"),
   ("Metop-SG-A2", "metopsga2"),
   ("Metop-SG-A3", "metopsga3"),
   ("Suomi-NPP", "npp"),
   ("NOAA-20", "noaa20"), ("NOAA-21", "noaa21"), ("NOAA-23", "noaa23"),
   ("EOS-Aqua", "eos2"), ("EOS-Terra", "eos1"),
   ("Meteosat-09", "meteosat09"), ("Meteosat-10", "meteosat10"),
   ("Meteosat-11", "meteosat11")]

/-! ### SceneId (`class SceneId` in utils.py) -/

/-- `SceneId.__init__`: start time in seconds since the epoch, threshold in
minutes (default 5, as in the source). -/
structure SceneId where
  platform_name : String
  orbit_number : Int
  starttime : Int
  threshold : Int := 5
deriving DecidableEq

/-- `SceneId.__eq__`: exact platform and orbit match, and the absolute start
time difference strictly below `timedelta(minutes=self.threshold)`.  Note the
threshold consulted is the LEFT operand's. -/
def SceneId.eq (a b : SceneId) : Bool :=
  (a.platform_name == b.platform_name) &&
  (a.orbit_number == b.orbit_number) &&
  decide ((a.starttime - b.starttime).natAbs < (a.threshold * 60).toNat)

/-- `SceneId.__hash__` hashes the string
`platform_name + '_' + orbit_number + '_' + starttime.strftime(%Y%m%d%H%M)`.
We model the canonical key string itself; the minute-truncated `strftime`
field is rendered as the floor number of whole minutes since the epoch
(two nonnegative times yield the same `%Y%m%d%H%M` text exactly when they
fall in the same whole minute). -/
def SceneId.hashKey (a : SceneId) : String :=
  a.platform_name ++ "_" ++ toString a.orbit_number ++ "_" ++
    toString (a.starttime / 60)

/-! ### ready2run (`def ready2run(msg, files4pps, **kwargs)`) -/

/-- Fields of `msg.data` consumed by `ready2run`.  The orbit number is kept in
its raw string rendering because the source applies `int(...)` to it. -/
structure MsgData where
  platform_name : String
  sensor : String
  orbit_number : String
  start_time : Option Int
  uri : String
  uid : String
  destination : Option String

/-- The parts of a posttroll message consumed by `ready2run`. -/
structure PpsMessage where
  mtype : String
  data : MsgData
  host : String

/-- Outcome of the `socket.gethostbyname(msg.host)` / `get_local_ips()` check:
the host resolves to a local address, resolves to a non-local address, or the
lookup raises (`AttributeError` / `socket.gaierror`, caught and only logged). -/
inductive HostCheck where
  | localOk
  | notLocal
  | resolveError
deriving DecidableEq

/-- `ready2run` (utils.py lines 228-330).  `checkUriFn` is the oracle for
`check_uri` (`.error` models an `IOError`); `hostCheck` is the oracle for the
host comparison; `files4pps` is the shared scene index (an association list).

The final part of the source reads

    for item in level1_files:
        files4pps[sceneid].append(item)
    LOG.debug("files4pps: %s", str(files4pps[sceneid]))

but `sceneid` is never assigned anywhere in the function (nor at module
level), so every execution that reaches this point raises `NameError`; the
lines below it, including `return True`, are unreachable. -/
def ready2run (checkUriFn : List String → Except Unit (List String))
    (hostCheck : HostCheck) (msg : PpsMessage)
    (files4pps : List (String × List String)) : Except PyErr Bool := do
  let destination := msg.data.destination
  if msg.mtype ≠ "file" then
    return false
  let uris :=
    match destination with
    | none => [msg.data.uri]
    | some d => [joinPath d msg.data.uid]
  let level1_files ←
    match checkUriFn uris with
    | .error _ => return false
    | .ok fs => pure fs
  if hostCheck = HostCheck.notLocal then
    return false
  if msg.data.sensor ∉ PPS_SENSORS then
    return false
  if msg.data.platform_name ∈ SUPPORTED_SEVIRI_SATELLITES then
    if msg.data.sensor ≠ "seviri" then
      return false
  else if msg.data.platform_name ∈ SUPPORTED_MODIS_SATELLITES then
    if msg.data.sensor ≠ "modis" then
      return false
  else if msg.data.platform_name ∈ SUPPORTED_VIIRS_SATELLITES then
    if msg.data.sensor ≠ "viirs" then
      return false
  else if msg.data.platform_name ∈ SUPPORTED_METIMAGE_SATELLITES then
    if msg.data.sensor ≠ "metimage" then
      return false
  else
    if msg.data.sensor ∉ NOAA_METOP_PPS_SENSORNAMES then
      return false
  let _orbit_number ←
    match pyInt msg.data.orbit_number with
    | none => Except.error PyErr.valueError
    | some n => pure n
  if (SATELLITE_NAME.lookup msg.data.platform_name).isNone then
    return false
  let _starttime := msg.data.start_time
  let _ := level1_files
  let _ := files4pps
  -- `files4pps[sceneid]`: the name `sceneid` is undefined here.
  Except.error PyErr.nameError

/-! ### Command builders -/

/-- Scene descriptor (a Python dict in the source); optional keys are
`Option`s, mandatory keys are plain fields. -/
structure Scene where
  platform_name : String
  orbit_number : Int
  satday : String
  sathour : String
  file4pps : String
  instrument : Option String := none
  sensor : Option String := none

/-- The options consumed by `create_pps_call_command_sequence`.  The
`aapp_level1files_max_minutes_old` value is kept in its `str()` rendering. -/
structure Options where
  aapp_level1files_max_minutes_old : String
  LVL1_NPP_PATH : Option String := none
  LVL1_EOS_PATH : Option String := none

/-- `os.environ.get(key, fallback)`. -/
def envGet (env : String → Option String) (key : String)
    (fallback : Option String) : Option String :=
  match env key with
  | some v => some v
  | none => fallback

/-- `create_pps_call_command_sequence` (utils.py lines 344-374), Protocol A.
The process environment is an explicit parameter `env`; the source consults
`os.environ` for `LVL1_NPP_PATH` and `LVL1_EOS_PATH`, falling back to the
options dict.  `SATELLITE_NAME[...]` raises `KeyError` on an unknown
platform. -/
def create_pps_call_command_sequence (env : String → Option String)
    (pps_script_name : String) (scene : Scene) (options : Options) :
    Except PyErr (List String) :=
  let lvl1_npp_path := envGet env "LVL1_NPP_PATH" options.LVL1_NPP_PATH
  let lvl1_eos_path := envGet env "LVL1_EOS_PATH" options.LVL1_EOS_PATH
  match SATELLITE_NAME.lookup scene.platform_name with
  | none => Except.error PyErr.keyError
  | some satname =>
    let cmdstr :=
      if scene.platform_name ∈ SUPPORTED_MODIS_SATELLITES then
        pps_script_name ++ " " ++ satname ++ " " ++
          toString scene.orbit_number ++ " " ++ scene.satday ++ " " ++
          scene.sathour
      else
        pps_script_name ++ " " ++ satname ++ " " ++
          toString scene.orbit_number ++ " 0 0"
    let cmdstr := cmdstr ++ " " ++ options.aapp_level1files_max_minutes_old
    let cmdstr :=
      if scene.platform_name ∈ SUPPORTED_VIIRS_SATELLITES ∧
          pyTruthyOptStr lvl1_npp_path = true then
        cmdstr ++ " " ++ pyStrOpt lvl1_npp_path
      else if scene.platform_name ∈ SUPPORTED_MODIS_SATELLITES ∧
          pyTruthyOptStr lvl1_eos_path = true then
        cmdstr ++ " " ++ pyStrOpt lvl1_eos_path
      else
        cmdstr
    Except.ok (shlex_split_simple cmdstr)

/-- `create_pps_call_command` (utils.py lines 377-385), Protocol B.  The
source builds and returns the single command STRING
`"%s" % python_exec + " %s " % pps_script_name + "-af %s" % scene['file4pps']`. -/
def create_pps_call_command (python_exec pps_script_name : String)
    (scene : Scene) : String :=
  python_exec ++ " " ++ pps_script_name ++ " " ++ "-af " ++ scene.file4pps

/-! ### Output resolver (`get_xml_outputfiles`) -/

/-- Zero-padding of `'%.5d' % n` (Python pads the magnitude to 5 digits, with
a leading minus sign for negative values). -/
def pad5 (n : Int) : String :=
  let s := toString n.natAbs
  let padded := String.mk (List.replicate (5 - s.length) '0') ++ s
  if n < 0 then "-" ++ padded else padded

/-- The glob pattern built by `get_xml_outputfiles`:
`os.path.join(path, 'S_NWC') + '*' + METOP_NAME_LETTER.get(platform, platform)
 + '_' + '%.5d' % orb + '_%s*.xml' % st_time`. -/
def xml_output_pattern (path platform_name : String) (orb : Int)
    (st_time : String) : String :=
  joinPath path "S_NWC" ++ "*" ++
    (match METOP_NAME_LETTER.lookup platform_name with
     | some v => v
     | none => platform_name) ++
    "_" ++ pad5 orb ++ "_" ++ st_time ++ "*.xml"

/-- The offset list tried by `get_xml_outputfiles` when the original orbit
number yields no match. -/
def ORBIT_OFFSETS : List Int := [1, -1, 2, -2, 3, -3, 4, -4, 5, -5]

/-- The retry loop of `get_xml_outputfiles`: try each offset in order, keep
the first glob result with at least one file; `last` carries the most recent
(empty) glob result, which is what the source returns when every offset
fails. -/
def offsets_search (globFn : String → List String)
    (path platform_name : String) (orb : Int) (st_time : String) :
    List Int → List String → List String
  | [], last => last
  | idx :: rest, _ =>
    if 0 < (globFn (xml_output_pattern path platform_name (orb + idx) st_time)).length then
      globFn (xml_output_pattern path platform_name (orb + idx) st_time)
    else
      offsets_search globFn path platform_name orb st_time rest
        (globFn (xml_output_pattern path platform_name (orb + idx) st_time))

/-- `get_xml_outputfiles` (utils.py lines 414-447).  `globFn` is the oracle
for `glob.glob`. -/
def get_xml_outputfiles (globFn : String → List String)
    (path platform_name : String) (orb : Int) (st_time : String) :
    List String :=
  let filelist := globFn (xml_output_pattern path platform_name orb st_time)
  if filelist.length = 0 then
    offsets_search globFn path platform_name orb st_time ORBIT_OFFSETS filelist
  else
    filelist

/-- Example glob oracle used to witness the retry order: no file matches at
orbit 12345, one file matches at orbit 12346 (offset +1) and one at orbit
12344 (offset −1). -/
def globEx : String → List String := fun p =>
  if p = xml_output_pattern "/out" "NOAA-19" 12346 "" then
    ["/out/S_NWC_CMA_noaa19_12346_a_b.xml"]
  else if p = xml_output_pattern "/out" "NOAA-19" 12344 "" then
    ["/out/S_NWC_CMA_noaa19_12344_a_b.xml"]
  else
    []

/-! ### Time-statistics bridge -/

/-- `create_xml_timestat_from_ascii` (utils.py lines 483-501).
`import_ok` models whether `from pps_time_control import PPSTimeControl`
succeeds; `write_result` models the outcome of `ppstime_con.write_xml()`
(the external converter).  A raising `write_xml` is caught and only logged;
the function then still returns `[infile.replace('.txt', '.xml')]`.  Only an
`ImportError` yields an empty list. -/
def create_xml_timestat_from_ascii (import_ok : Bool)
    (write_result : Except String Unit) (infile : String) : List String :=
  if import_ok = false then []
  else
    let _ :=
      match write_result with
      | .error _ => ()  -- LOG.warning; the exception is swallowed
      | .ok _ => ()
    [pyReplace infile ".txt" ".xml"]

/-- `create_xml_timestat_from_lvl1c` (utils.py lines 450-460).
`derive_result` models `create_pps_file_from_lvl1c(scene['file4pps'], ...)`
(`.error` is the `KeyError` branch); `path_exists` models
`os.path.exists`. -/
def create_xml_timestat_from_lvl1c (derive_result : Except Unit String)
    (path_exists : String → Bool) (import_ok : Bool)
    (write_result : Except String Unit) : List String :=
  match derive_result with
  | .error _ => []
  | .ok txt_time_control =>
    if path_exists txt_time_control then
      create_xml_timestat_from_ascii import_ok write_result txt_time_control
    else
      []

/-! ### Result publisher (`publish_pps_files`) -/

/-- The fields a successful trollsift parse of `PPS_OUT_PATTERN` or
`PPS_STAT_PATTERN` yields (timestamps modelled as seconds since the epoch). -/
structure ParsedMeta where
  segment : String
  orig_platform_name : String
  orbit_number : Int
  start_time : Int
  end_time : Int
deriving DecidableEq

/-- The fields a successful parse of `PPS_OUT_PATTERN_MULTIPLE` yields. -/
structure ParsedMetaMultiple where
  segment1 : String
  segment2 : String
  orig_platform_name : String
  orbit_number : Int
  start_time : Int
  end_time : Int
deriving DecidableEq

/-- The dual-segment metadata folded into single-segment form:
`metadata['segment'] = '_'.join([metadata['segment1'], metadata['segment2']])`. -/
def joinSegments (m : ParsedMetaMultiple) : ParsedMeta :=
  { segment := m.segment1 ++ "_" ++ m.segment2
    orig_platform_name := m.orig_platform_name
    orbit_number := m.orbit_number
    start_time := m.start_time
    end_time := m.end_time }

/-- The nested try/except template cascade of `publish_pps_files` (utils.py
lines 517-526): try `PPS_OUT_PATTERN`; on `ValueError` try
`PPS_OUT_PATTERN_MULTIPLE` and join the segment fields; if that also raises,
the outer handler tries `PPS_STAT_PATTERN`.  The trollsift parsers are oracle
parameters (`none` models a `ValueError`); `none` overall means the
`ValueError` of the statistics parse propagates. -/
def parse_result_filename (pOut : String → Option ParsedMeta)
    (pMul : String → Option ParsedMetaMultiple)
    (pStat : String → Option ParsedMeta) (filename : String) :
    Option ParsedMeta :=
  match pOut filename with
  | some m => some m
  | none =>
    match pMul filename with
    | some m2 => some (joinSegments m2)
    | none => pStat filename

/-- The fields of `input_msg.data` consumed by `publish_pps_files`. -/
structure InMsgData where
  start_time : Int
  end_time : Int
  format : Option String
  ftype : Option String
  dataset : Option String
  collection : Option String
deriving DecidableEq

/-- The outgoing payload `to_send` assembled by `publish_pps_files`
(`ftype` stands for the `'type'` key). -/
structure OutPayload where
  uri : String
  uid : String
  sensor : Option String
  platform_name : String
  orbit_number : Int
  format : Option String
  ftype : Option String
  data_processing_level : String
  start_time : Int
  end_time : Int
  dataset : Option String
  collection : Option String
deriving DecidableEq

/-- The `to_send` assembly of `publish_pps_files` (utils.py lines 528-550):
copy the incoming data, pop `dataset`/`collection`, set uri/uid/sensor/
platform/orbit/format/type/level, and overwrite `start_time`/`end_time` with
the values parsed from the filename.  The source runs two successive `if`
statements on the `xml` and `nc` suffixes; no filename matches both, so the
if/else-if chain is equivalent. -/
def build_to_send (input : InMsgData) (scene : Scene) (result_file : String)
    (meta : ParsedMeta) : OutPayload :=
  let filename := basename result_file
  let sensor0 := scene.instrument
  let sensor1 := if pyTruthyOptStr sensor0 then sensor0 else scene.sensor
  { uri := result_file
    uid := filename
    sensor := sensor1
    platform_name := scene.platform_name
    orbit_number := scene.orbit_number
    format :=
      if pyEndsWith result_file "xml" then some "PPS-XML"
      else if pyEndsWith result_file "nc" then some "CF"
      else input.format
    ftype :=
      if pyEndsWith result_file "xml" then some "XML"
      else if pyEndsWith result_file "nc" then some "netCDF4"
      else input.ftype
    data_processing_level := "2"
    start_time := meta.start_time
    end_time := meta.end_time
    dataset := none
    collection := none }

/-- One observable publishing action: a successful `publish_q.put(pubmsg)` or
a successful fallback `publish_q.send(pubmsg)`. -/
inductive PubEvent where
  | put (m : OutPayload)
  | send (m : OutPayload)
deriving DecidableEq

/-- The per-file loop of `publish_pps_files` (utils.py lines 512-561).
`putOk`/`sendOk` are oracles for whether `publish_q.put` / `publish_q.send`
succeed on a given message; `evs` is the trace of successful publishing
actions so far.  A parse failure of all three templates, or a failure of both
`put` and its `send` fallback, raises out of the whole function
(`Except.error` carries the trace accumulated up to that point, showing which
files were attempted). -/
def publish_loop (putOk sendOk : OutPayload → Bool)
    (pOut : String → Option ParsedMeta)
    (pMul : String → Option ParsedMetaMultiple)
    (pStat : String → Option ParsedMeta)
    (input : InMsgData) (scene : Scene) :
    List String → List PubEvent → Except (List PubEvent) (List PubEvent)
  | [], evs => .ok evs
  | result_file :: rest, evs =>
    match parse_result_filename pOut pMul pStat (basename result_file) with
    | none => .error evs
    | some meta =>
      let payload := build_to_send input scene result_file meta
      if putOk payload then
        publish_loop putOk sendOk pOut pMul pStat input scene rest
          (evs ++ [PubEvent.put payload])
      else if sendOk payload then
        publish_loop putOk sendOk pOut pMul pStat input scene rest
          (evs ++ [PubEvent.send payload])
      else
        .error evs

/-- `publish_pps_files`: run the per-file loop over all result files with an
empty initial trace. -/
def publish_pps_files (putOk sendOk : OutPayload → Bool)
    (pOut : String → Option ParsedMeta)
    (pMul : String → Option ParsedMetaMultiple)
    (pStat : String → Option ParsedMeta)
    (input : InMsgData) (scene : Scene) (result_files : List String) :
    Except (List PubEvent) (List PubEvent) :=
  publish_loop putOk sendOk pOut pMul pStat input scene result_files []

/-- The events recorded by a run, whether it completed or aborted. -/
def events_of : Except (List PubEvent) (List PubEvent) → List PubEvent
  | .ok evs => evs
  | .error evs => evs

/-- The spec's ResultPublisher example filename. -/
def fnameEx : String :=
  "S_NWC_CTTH_noaa19_00001_20200101T000000000Z_20200101T001000000Z.nc"

/-- Metadata parsed from `fnameEx`: segment CTTH, platform noaa19, orbit 1,
start 2020-01-01T00:00:00 (encoded as 0), end 00:10:00 (600 seconds). -/
def metaEx : ParsedMeta :=
  { segment := "CTTH", orig_platform_name := "noaa19", orbit_number := 1,
    start_time := 0, end_time := 600 }

/-- Single-segment parser oracle recognising exactly `fnameEx`. -/
def pOutEx : String → Option ParsedMeta :=
  fun f => if f = fnameEx then some metaEx else none

/-- Single-segment parser oracle accepting every filename (as `metaEx`). -/
def pOutAll : String → Option ParsedMeta :=
  fun _ => some metaEx

/-- Dual-segment parser oracle that always fails. -/
def pMulNone : String → Option ParsedMetaMultiple :=
  fun _ => none

/-- Statistics parser oracle that always fails. -/
def pStatNone : String → Option ParsedMeta :=
  fun _ => none

/-- An incoming event payload carrying its own (to-be-overridden) timestamps
(start 11, end 22) and dataset/collection fields. -/
def inMsgEx : InMsgData :=
  { start_time := 11, end_time := 22, format := none, ftype := none,
    dataset := some "ds", collection := some "cl" }

/-- A scene descriptor for the publisher examples. -/
def sceneEx : Scene :=
  { platform_name := "NOAA-19", orbit_number := 1, satday := "0",
    sathour := "0", file4pps := "", instrument := some "avhrr/3" }

/-! ## Theorems -/

/-- C2: for two scene identities with equal platform name and equal orbit
number, `SceneId.__eq__` returns true exactly when the absolute start-time
difference is strictly below the (left operand's) tolerance in seconds, and
returns false whenever the difference reaches the tolerance — in particular
at exactly the tolerance. -/
theorem sceneId_eq_tolerance (a b : SceneId)
    (hp : a.platform_name = b.platform_name)
    (ho : a.orbit_number = b.orbit_number) :
    (SceneId.eq a b = true ↔
      (a.starttime - b.starttime).natAbs < (a.threshold * 60).toNat) ∧
    ((a.threshold * 60).toNat ≤ (a.starttime - b.starttime).natAbs →
      SceneId.eq a b = false) := by
  constructor
  · simp [SceneId.eq, hp, ho]
  · intro h
    simp [SceneId.eq, hp, ho, Nat.not_lt.mpr h]

/-- Witness for C2: with the default 5-minute tolerance, a 299-second
difference compares equal and a difference of exactly 300 seconds
(= 5 minutes) does not. -/
theorem sceneId_eq_tolerance_witness :
    (SceneId.eq ⟨"NOAA-19", 12345, 0, 5⟩ ⟨"NOAA-19", 12345, 299, 5⟩ = true) ∧
    (SceneId.eq ⟨"NOAA-19", 12345, 0, 5⟩ ⟨"NOAA-19", 12345, 300, 5⟩ = false) :=
  ⟨(sceneId_eq_tolerance ⟨"NOAA-19", 12345, 0, 5⟩ ⟨"NOAA-19", 12345, 299, 5⟩
      rfl rfl).1.mpr (by decide),
   (sceneId_eq_tolerance ⟨"NOAA-19", 12345, 0, 5⟩ ⟨"NOAA-19", 12345, 300, 5⟩
      rfl rfl).2 (by decide)⟩

/-- C3: two scene identities can be equal under the tolerance-based
`SceneId.__eq__` and still carry different hash keys, because the key
truncates the start time to whole minutes: times 59s and 61s after the epoch
differ by 2 seconds (well inside the 5-minute tolerance) but fall in
different whole minutes. -/
theorem sceneId_eq_hashKey_mismatch :
    ∃ a b : SceneId,
      SceneId.eq a b = true ∧ SceneId.hashKey a ≠ SceneId.hashKey b :=
  ⟨⟨"NOAA-19", 12345, 59, 5⟩, ⟨"NOAA-19", 12345, 61, 5⟩, by decide, by decide⟩

/-- C10: `SceneId.__eq__` consults only the left operand's threshold, so with
different thresholds (10 vs 1 minutes) and a 300-second start-time difference
`a == b` holds while `b == a` fails, for equal platform and orbit. -/
theorem sceneId_eq_not_symmetric :
    ∃ a b : SceneId, a.platform_name = b.platform_name ∧
      a.orbit_number = b.orbit_number ∧
      SceneId.eq a b = true ∧ SceneId.eq b a = false :=
  ⟨⟨"NOAA-19", 12345, 0, 10⟩, ⟨"NOAA-19", 12345, 300, 1⟩, rfl, rfl,
   by decide, by decide⟩

/-- C1 (failing input): a well-formed `file` event for a supported
MODIS platform/sensor with a parseable orbit number, accessible files and a
local host passes every gate of `ready2run`, yet the function raises
`NameError` instead of appending the file to the scene record and returning
ready: the index key variable `sceneid` is never assigned in the function. -/
theorem ready2run_raises_name_error :
    ready2run (fun uris => Except.ok uris) HostCheck.localOk
      { mtype := "file"
        data := { platform_name := "EOS-Aqua", sensor := "modis",
                  orbit_number := "12345", start_time := some 0,
                  uri := "/san1/polar_in/modis/thin_MYD021km.hdf",
                  uid := "thin_MYD021km.hdf", destination := none }
        host := "localhost" }
      [] = Except.error PyErr.nameError := by
  rfl

/-- A string with an empty character list is the empty string. -/
theorem string_toList_eq_nil (s : String) (h : s.toList = []) : s = "" := by
  cases s with
  | mk data =>
    cases data with
    | nil => rfl
    | cons c cs => simp [String.toList] at h

/-- Splitting a chunk of non-space characters followed by a space: the chunk
joins whatever is in the accumulator and is emitted as one token (unless
empty). -/
theorem splitSp_append_space (a : List Char) (ha : ∀ c ∈ a, c ≠ ' ') :
    ∀ (acc rest : List Char),
    splitSp (a ++ ' ' :: rest) acc =
      (if acc.reverse ++ a = [] then splitSp rest []
       else String.mk (acc.reverse ++ a) :: splitSp rest []) := by
  induction a with
  | nil =>
    intro acc rest
    simp [splitSp, List.reverse_eq_nil_iff]
  | cons c a ih =>
    intro acc rest
    have hc : c ≠ ' ' := ha c (List.mem_cons_self c a)
    have ha' : ∀ x ∈ a, x ≠ ' ' := fun x hx => ha x (List.mem_cons_of_mem c hx)
    simp only [List.cons_append, splitSp, if_neg hc, List.append_eq]
    rw [ih ha' (c :: acc) rest]
    simp [List.reverse_cons, List.append_assoc]

/-- Splitting a trailing chunk of non-space characters. -/
theorem splitSp_no_space (a : List Char) (ha : ∀ c ∈ a, c ≠ ' ') :
    ∀ acc, splitSp a acc =
      (if acc.reverse ++ a = [] then [] else [String.mk (acc.reverse ++ a)]) := by
  induction a with
  | nil =>
    intro acc
    simp [splitSp, List.reverse_eq_nil_iff]
  | cons c a ih =>
    intro acc
    have hc : c ≠ ' ' := ha c (List.mem_cons_self c a)
    simp only [splitSp, if_neg hc]
    rw [ih (fun x hx => ha x (List.mem_cons_of_mem c hx)) (c :: acc)]
    simp [List.reverse_cons, List.append_assoc]

/-- Tokenising `p ++ " " ++ s ++ " " ++ "-af " ++ f` for space-free nonempty
chunks. -/
theorem splitSp_four (p s f : List Char)
    (hp : ∀ c ∈ p, c ≠ ' ') (hpn : p ≠ [])
    (hs : ∀ c ∈ s, c ≠ ' ') (hsn : s ≠ [])
    (hf : ∀ c ∈ f, c ≠ ' ') (hfn : f ≠ []) :
    splitSp (p ++ ' ' :: (s ++ ' ' :: (['-', 'a', 'f'] ++ ' ' :: f))) [] =
      [String.mk p, String.mk s, "-af", String.mk f] := by
  rw [splitSp_append_space p hp []]
  simp only [List.reverse_nil, List.nil_append, if_neg hpn]
  rw [splitSp_append_space s hs []]
  simp only [List.reverse_nil, List.nil_append, if_neg hsn]
  rw [splitSp_append_space ['-', 'a', 'f'] (by decide) []]
  simp only [List.reverse_nil, List.nil_append]
  rw [splitSp_no_space f hf []]
  simp only [List.reverse_nil, List.nil_append, if_neg hfn]
  simp

/-- C4 (counterexample): with an input file path containing a space, the
Protocol B command string does not split into the four-element argument
sequence the claim states: the path is torn into two tokens. -/
theorem create_pps_call_command_space_cex :
    shlex_split_simple (create_pps_call_command "/usr/bin/python3"
        "/opt/pps/run.py"
        { platform_name := "EOS-Aqua", orbit_number := 12345, satday := "0",
          sathour := "0", file4pps := "/data/my file.nc" }) ≠
      ["/usr/bin/python3", "/opt/pps/run.py", "-af", "/data/my file.nc"] ∧
    shlex_split_simple (create_pps_call_command "/usr/bin/python3"
        "/opt/pps/run.py"
        { platform_name := "EOS-Aqua", orbit_number := 12345, satday := "0",
          sathour := "0", file4pps := "/data/my file.nc" }) =
      ["/usr/bin/python3", "/opt/pps/run.py", "-af", "/data/my", "file.nc"] := by
  constructor
  · decide
  · decide

/-- C4 (amended): Protocol B (`create_pps_call_command`) builds the single
command string `interpreter ++ " " ++ script ++ " -af " ++ inputFile`; for
nonempty, whitespace-free interpreter, script and input paths its
`shlex.split` is exactly `[interpreter, script, "-af", inputFile]`. -/
theorem create_pps_call_command_argv (python_exec pps_script_name f : String)
    (scene : Scene) (hfile : scene.file4pps = f)
    (h1 : ∀ c ∈ python_exec.toList, c ≠ ' ') (h1n : python_exec ≠ "")
    (h2 : ∀ c ∈ pps_script_name.toList, c ≠ ' ') (h2n : pps_script_name ≠ "")
    (h3 : ∀ c ∈ f.toList, c ≠ ' ') (h3n : f ≠ "") :
    shlex_split_simple
        (create_pps_call_command python_exec pps_script_name scene) =
      [python_exec, pps_script_name, "-af", f] := by
  subst hfile
  have hdata : (create_pps_call_command python_exec pps_script_name scene).toList
      = python_exec.toList ++ ' ' :: (pps_script_name.toList ++ ' ' ::
          (['-', 'a', 'f'] ++ ' ' :: scene.file4pps.toList)) := by
    show python_exec.toList ++ [' '] ++ pps_script_name.toList ++ [' '] ++
        ['-', 'a', 'f', ' '] ++ scene.file4pps.toList = _
    simp [List.append_assoc]
  have heta : ∀ t : String, String.mk t.toList = t := fun t => rfl
  unfold shlex_split_simple
  rw [hdata, splitSp_four _ _ _ h1 (fun hc => h1n (string_toList_eq_nil _ hc))
    h2 (fun hc => h2n (string_toList_eq_nil _ hc))
    h3 (fun hc => h3n (string_toList_eq_nil _ hc)), heta, heta, heta]

/-- Witness for C4 (amended): the spec's own example, with space-free paths,
yields exactly the claimed argument sequence. -/
theorem create_pps_call_command_argv_witness :
    shlex_split_simple (create_pps_call_command "/usr/bin/python3"
        "/opt/pps/run.py"
        { platform_name := "EOS-Aqua", orbit_number := 12345, satday := "0",
          sathour := "0", file4pps := "/data/f.nc" }) =
      ["/usr/bin/python3", "/opt/pps/run.py", "-af", "/data/f.nc"] :=
  create_pps_call_command_argv "/usr/bin/python3" "/opt/pps/run.py" "/data/f.nc"
    { platform_name := "EOS-Aqua", orbit_number := 12345, satday := "0",
      sathour := "0", file4pps := "/data/f.nc" }
    rfl (by decide) (by decide) (by decide) (by decide) (by decide) (by decide)

/-- C7 (counterexample): `create_pps_call_command_sequence` is not
independent of the process environment: for a VIIRS scene, identical scene
descriptor and options produce different argument sequences depending on the
environment variable `LVL1_NPP_PATH`. -/
theorem create_pps_call_command_sequence_env_cex :
    create_pps_call_command_sequence
        (fun k => if k = "LVL1_NPP_PATH" then some "/env/npp" else none)
        "pps_run.sh"
        { platform_name := "Suomi-NPP", orbit_number := 12345, satday := "0",
          sathour := "0", file4pps := "" }
        { aapp_level1files_max_minutes_old := "90" } =
      Except.ok ["pps_run.sh", "npp", "12345", "0", "0", "90", "/env/npp"] ∧
    create_pps_call_command_sequence (fun _ => none) "pps_run.sh"
        { platform_name := "Suomi-NPP", orbit_number := 12345, satday := "0",
          sathour := "0", file4pps := "" }
        { aapp_level1files_max_minutes_old := "90" } =
      Except.ok ["pps_run.sh", "npp", "12345", "0", "0", "90"] ∧
    (["pps_run.sh", "npp", "12345", "0", "0", "90", "/env/npp"] : List String) ≠
      ["pps_run.sh", "npp", "12345", "0", "0", "90"] :=
  ⟨rfl, rfl, by decide⟩

/-- C7 (amended): both command builders are deterministic functions of their
explicit inputs; Protocol A (`create_pps_call_command_sequence`) reads the
process environment, but only through the keys `LVL1_NPP_PATH` and
`LVL1_EOS_PATH` — two environments agreeing on those two keys yield identical
argument sequences — and Protocol B (`create_pps_call_command`) depends on
the scene only through its `file4pps` entry and reads no environment at
all. -/
theorem cmd_builders_env_independence (env1 env2 : String → Option String)
    (hn : env1 "LVL1_NPP_PATH" = env2 "LVL1_NPP_PATH")
    (he : env1 "LVL1_EOS_PATH" = env2 "LVL1_EOS_PATH")
    (pps_script_name : String) (scene : Scene) (options : Options) :
    create_pps_call_command_sequence env1 pps_script_name scene options =
      create_pps_call_command_sequence env2 pps_script_name scene options ∧
    (∀ (python_exec script : String) (c c' : Scene),
      c.file4pps = c'.file4pps →
      create_pps_call_command python_exec script c =
        create_pps_call_command python_exec script c') := by
  constructor
  · unfold create_pps_call_command_sequence envGet
    rw [hn, he]
  · intro python_exec script c c' h
    unfold create_pps_call_command
    rw [h]

/-- Witness for C7 (amended): environments differing only in an unrelated
variable (`HOME`) produce the same Protocol A sequence, and two scenes
sharing only `file4pps` produce the same Protocol B command. -/
theorem cmd_builders_env_independence_witness :
    (create_pps_call_command_sequence
        (fun k => if k = "HOME" then some "/home/x" else none) "pps_run.sh"
        { platform_name := "Suomi-NPP", orbit_number := 12345, satday := "0",
          sathour := "0", file4pps := "" }
        { aapp_level1files_max_minutes_old := "90" } =
      create_pps_call_command_sequence (fun _ => none) "pps_run.sh"
        { platform_name := "Suomi-NPP", orbit_number := 12345, satday := "0",
          sathour := "0", file4pps := "" }
        { aapp_level1files_max_minutes_old := "90" }) ∧
    (create_pps_call_command "/usr/bin/python3" "/opt/pps/run.py"
        { platform_name := "Suomi-NPP", orbit_number := 1, satday := "0",
          sathour := "0", file4pps := "/data/f.nc" } =
      create_pps_call_command "/usr/bin/python3" "/opt/pps/run.py"
        { platform_name := "EOS-Aqua", orbit_number := 2, satday := "1",
          sathour := "2", file4pps := "/data/f.nc" }) :=
  ⟨(cmd_builders_env_independence
      (fun k => if k = "HOME" then some "/home/x" else none) (fun _ => none)
      (by decide) (by decide) "pps_run.sh"
      { platform_name := "Suomi-NPP", orbit_number := 12345, satday := "0",
        sathour := "0", file4pps := "" }
      { aapp_level1files_max_minutes_old := "90" }).1,
   (cmd_builders_env_independence (fun _ => none) (fun _ => none) rfl rfl "x"
      { platform_name := "Suomi-NPP", orbit_number := 12345, satday := "0",
        sathour := "0", file4pps := "" }
      { aapp_level1files_max_minutes_old := "90" }).2
     "/usr/bin/python3" "/opt/pps/run.py" _ _ rfl⟩

/-- C5 (counterexample): with the converter importable and `write_xml()`
raising, `create_xml_timestat_from_ascii` still returns the singleton list
holding the ascii filename with `.txt` replaced by `.xml` — not the empty
sequence the claim states. -/
theorem create_xml_timestat_write_failure_cex :
    create_xml_timestat_from_ascii true (Except.error "TypeError")
        "/ctrl/S_NWC_timectrl_npp_12345_a_b.txt" =
      ["/ctrl/S_NWC_timectrl_npp_12345_a_b.xml"] ∧
    (["/ctrl/S_NWC_timectrl_npp_12345_a_b.xml"] : List String) ≠ [] := by
  constructor
  · rfl
  · decide

/-- C5 (amended): when conversion to XML fails (the converter's write step
raises), the failure is only logged and the function still returns the
singleton `[infile.replace('.txt', '.xml')]`; an empty sequence is returned
only when the converter cannot be imported, or — via
`create_xml_timestat_from_lvl1c` — when the derived ascii file does not
exist. -/
theorem create_xml_timestat_from_ascii_result (write_result : Except String Unit)
    (infile : String) (path_exists : String → Bool) :
    create_xml_timestat_from_ascii true write_result infile =
      [pyReplace infile ".txt" ".xml"] ∧
    create_xml_timestat_from_ascii false write_result infile = [] ∧
    create_xml_timestat_from_lvl1c (Except.ok infile) path_exists true
        write_result =
      (if path_exists infile then [pyReplace infile ".txt" ".xml"] else []) := by
  refine ⟨?_, rfl, ?_⟩
  · cases write_result <;> rfl
  · show (if path_exists infile then
        create_xml_timestat_from_ascii true write_result infile else []) = _
    cases hpe : path_exists infile
    · simp
    · simp only [if_pos]
      cases write_result <;> rfl

/-- Finding the first offset with a nonempty glob: if every offset before `d`
in the list globs empty and `d` globs nonempty, the retry loop returns `d`'s
glob result. -/
theorem offsets_search_found (globFn : String → List String)
    (path platform_name : String) (orb : Int) (st_time : String) :
    ∀ (pre : List Int) (d : Int) (post : List Int) (last : List String),
      (∀ e ∈ pre,
        globFn (xml_output_pattern path platform_name (orb + e) st_time) = []) →
      globFn (xml_output_pattern path platform_name (orb + d) st_time) ≠ [] →
      offsets_search globFn path platform_name orb st_time (pre ++ d :: post)
          last =
        globFn (xml_output_pattern path platform_name (orb + d) st_time) := by
  intro pre
  induction pre with
  | nil =>
    intro d post last _ hd
    simp only [List.nil_append, offsets_search]
    rw [if_pos (List.length_pos.mpr hd)]
  | cons e pre ih =>
    intro d post last hpre hd
    simp only [List.cons_append, offsets_search]
    rw [hpre e (List.mem_cons_self e pre)]
    simp only [List.length_nil, lt_irrefl, if_false]
    exact ih d post _ (fun x hx => hpre x (List.mem_cons_of_mem e hx)) hd

/-- If every offset globs empty and the carried result is empty, the retry
loop returns the empty list. -/
theorem offsets_search_all_empty (globFn : String → List String)
    (path platform_name : String) (orb : Int) (st_time : String) :
    ∀ (l : List Int) (last : List String),
      (∀ e ∈ l,
        globFn (xml_output_pattern path platform_name (orb + e) st_time) = []) →
      last = [] →
      offsets_search globFn path platform_name orb st_time l last = [] := by
  intro l
  induction l with
  | nil =>
    intro last _ hl
    simpa [offsets_search] using hl
  | cons e l ih =>
    intro last h _
    simp only [offsets_search]
    rw [h e (List.mem_cons_self e l)]
    simp only [List.length_nil, lt_irrefl, if_false]
    exact ih _ (fun x hx => h x (List.mem_cons_of_mem e hx)) rfl

/-- C6: when the glob at the given orbit yields no match,
`get_xml_outputfiles` retries the orbit perturbed by the offsets in exactly
the order +1, −1, +2, −2, +3, −3, +4, −4, +5, −5, returns the first
offset's glob result holding at least one file, and returns the empty
sequence (not an error) when every offset globs empty. -/
theorem get_xml_outputfiles_retry_order (globFn : String → List String)
    (path platform_name : String) (orb : Int) (st_time : String)
    (h0 : globFn (xml_output_pattern path platform_name orb st_time) = []) :
    (∀ (pre : List Int) (d : Int) (post : List Int),
      ORBIT_OFFSETS = pre ++ d :: post →
      (∀ e ∈ pre,
        globFn (xml_output_pattern path platform_name (orb + e) st_time) = []) →
      globFn (xml_output_pattern path platform_name (orb + d) st_time) ≠ [] →
      get_xml_outputfiles globFn path platform_name orb st_time =
        globFn (xml_output_pattern path platform_name (orb + d) st_time)) ∧
    ((∀ d ∈ ORBIT_OFFSETS,
        globFn (xml_output_pattern path platform_name (orb + d) st_time) = []) →
      get_xml_outputfiles globFn path platform_name orb st_time = []) := by
  have hunfold : get_xml_outputfiles globFn path platform_name orb st_time =
      offsets_search globFn path platform_name orb st_time ORBIT_OFFSETS
        (globFn (xml_output_pattern path platform_name orb st_time)) := by
    unfold get_xml_outputfiles
    rw [h0]
    simp
  constructor
  · intro pre d post hsplit hpre hd
    rw [hunfold, h0, hsplit]
    exact offsets_search_found globFn path platform_name orb st_time pre d post
      [] hpre hd
  · intro hall
    rw [hunfold, h0]
    exact offsets_search_all_empty globFn path platform_name orb st_time
      ORBIT_OFFSETS [] hall rfl

/-- Witness for C6: with no match at orbit 12345 and matches at both
orbit 12346 and orbit 12344, the resolver returns the orbit-12346 file —
offset +1 is tried before −1. -/
theorem get_xml_outputfiles_retry_order_witness :
    get_xml_outputfiles globEx "/out" "NOAA-19" 12345 "" =
      ["/out/S_NWC_CMA_noaa19_12346_a_b.xml"] ∧
    globEx (xml_output_pattern "/out" "NOAA-19" (12345 + -1) "") =
      ["/out/S_NWC_CMA_noaa19_12344_a_b.xml"] := by
  constructor
  · have h := (get_xml_outputfiles_retry_order globEx "/out" "NOAA-19" 12345 ""
      (by decide)).1 [] 1 [-1, 2, -2, 3, -3, 4, -4, 5, -5] rfl
      (by simp) (by decide)
    rw [h]
    decide
  · decide

/-- C8: the publisher parses each basename with the single-segment template
first; only when that fails does it use the dual-segment template (joining
the two segment fields with an underscore into one logical segment field);
only when both fail does it use the statistics template; and the timestamps
extracted from the matched filename replace the timestamps carried on the
original event in the outgoing payload. -/
theorem publish_template_order_and_override
    (pOut pStat : String → Option ParsedMeta)
    (pMul : String → Option ParsedMetaMultiple) (f : String) :
    (∀ m, pOut f = some m → parse_result_filename pOut pMul pStat f = some m) ∧
    (pOut f = none → ∀ m2, pMul f = some m2 →
      parse_result_filename pOut pMul pStat f =
        some { segment := m2.segment1 ++ "_" ++ m2.segment2
               orig_platform_name := m2.orig_platform_name
               orbit_number := m2.orbit_number
               start_time := m2.start_time
               end_time := m2.end_time }) ∧
    (pOut f = none → pMul f = none →
      parse_result_filename pOut pMul pStat f = pStat f) ∧
    (∀ (input : InMsgData) (scene : Scene) (result_file : String)
        (m : ParsedMeta),
      (build_to_send input scene result_file m).start_time = m.start_time ∧
      (build_to_send input scene result_file m).end_time = m.end_time) := by
  refine ⟨?_, ?_, ?_, ?_⟩
  · intro m hm
    simp [parse_result_filename, hm]
  · intro h0 m2 hm2
    simp [parse_result_filename, h0, hm2, joinSegments]
  · intro h0 h1
    simp [parse_result_filename, h0, h1]
  · intro input scene result_file m
    exact ⟨rfl, rfl⟩

/-- Witness for C8: the spec's example filename, recognised by the
single-segment parser, keeps its parsed metadata; in the outgoing payload the
parsed timestamps (0 and 600) replace the event's own (11 and 22), and the
`.nc` extension yields format CF and type netCDF4. -/
theorem publish_template_order_and_override_witness :
    parse_result_filename pOutEx pMulNone pStatNone fnameEx = some metaEx ∧
    (build_to_send inMsgEx sceneEx fnameEx metaEx).start_time = 0 ∧
    (build_to_send inMsgEx sceneEx fnameEx metaEx).end_time = 600 ∧
    (build_to_send inMsgEx sceneEx fnameEx metaEx).format = some "CF" ∧
    (build_to_send inMsgEx sceneEx fnameEx metaEx).ftype = some "netCDF4" := by
  refine ⟨(publish_template_order_and_override pOutEx pStatNone pMulNone
    fnameEx).1 metaEx (by decide), ?_, ?_, by decide, by decide⟩
  · exact ((publish_template_order_and_override pOutEx pStatNone pMulNone
      fnameEx).2.2.2 inMsgEx sceneEx fnameEx metaEx).1
  · exact ((publish_template_order_and_override pOutEx pStatNone pMulNone
      fnameEx).2.2.2 inMsgEx sceneEx fnameEx metaEx).2

/-- C9 (counterexample): with both the queue `put` and the fallback `send`
failing on the first of two produced files, `publish_pps_files` aborts with
the exception from `send`: no publishing action is recorded for either file,
so the remaining file is NOT attempted, contrary to the claim. -/
theorem publish_abort_cex :
    publish_pps_files (fun _ => false) (fun _ => false) pOutAll pMulNone
        pStatNone inMsgEx sceneEx ["/d/a.nc", "/d/b.nc"] = Except.error [] ∧
    events_of (publish_pps_files (fun _ => false) (fun _ => false) pOutAll
        pMulNone pStatNone inMsgEx sceneEx ["/d/a.nc", "/d/b.nc"]) = [] :=
  ⟨rfl, rfl⟩

/-- C9 (amended): when enqueuing fails, the publisher falls back to a direct
send on the same queue object and then continues with the remaining files;
but when the direct send also fails, the exception propagates out of the
whole call, so the remaining produced files are NOT attempted. -/
theorem publish_queue_fallback (putOk sendOk : OutPayload → Bool)
    (pOut : String → Option ParsedMeta)
    (pMul : String → Option ParsedMetaMultiple)
    (pStat : String → Option ParsedMeta) (input : InMsgData) (scene : Scene)
    (result_file : String) (rest : List String) (evs : List PubEvent)
    (m : ParsedMeta)
    (hparse : parse_result_filename pOut pMul pStat (basename result_file) =
      some m)
    (hput : putOk (build_to_send input scene result_file m) = false) :
    (sendOk (build_to_send input scene result_file m) = true →
      publish_loop putOk sendOk pOut pMul pStat input scene
          (result_file :: rest) evs =
        publish_loop putOk sendOk pOut pMul pStat input scene rest
          (evs ++ [PubEvent.send (build_to_send input scene result_file m)])) ∧
    (sendOk (build_to_send input scene result_file m) = false →
      publish_loop putOk sendOk pOut pMul pStat input scene
          (result_file :: rest) evs = Except.error evs) := by
  constructor
  · intro hsend
    simp [publish_loop, hparse, hput, hsend]
  · intro hsend
    simp [publish_loop, hparse, hput, hsend]

/-- Witness for C9 (amended): with `put` failing and `send` succeeding, the
single file is published through the fallback send; with both failing, the
call aborts with an empty trace. -/
theorem publish_queue_fallback_witness :
    publish_loop (fun _ => false) (fun _ => true) pOutAll pMulNone pStatNone
        inMsgEx sceneEx ["/d/a.nc"] [] =
      Except.ok [PubEvent.send (build_to_send inMsgEx sceneEx "/d/a.nc" metaEx)] ∧
    publish_loop (fun _ => false) (fun _ => false) pOutAll pMulNone pStatNone
        inMsgEx sceneEx ["/d/a.nc"] [] = Except.error [] := by
  constructor
  · rw [(publish_queue_fallback (fun _ => false) (fun _ => true) pOutAll
      pMulNone pStatNone inMsgEx sceneEx "/d/a.nc" [] [] metaEx rfl rfl).1 rfl]
    rfl
  · exact (publish_queue_fallback (fun _ => false) (fun _ => false) pOutAll
      pMulNone pStatNone inMsgEx sceneEx "/d/a.nc" [] [] metaEx rfl rfl).2 rfl

end PPSRunner
